import Mathlib

/-!
Verification of the access-control, context-assembly and ingestion core of the
TechM-AI-Assistant repository.  The Python sources under
Telecom_AI_Assistant/Telecom_Professional are shallowly embedded below:
SQLite tables become lists of record rows, the handful of SQL statements the
managers issue become explicit list transformations with SQLite semantics
(including the semantics of INSERT OR REPLACE against the actual declared
schema and the ASCII case folding of LIKE), and the two external capabilities
(the chat-completion call and the vector-index query) become explicit
function/`Except` parameters.  Timestamp columns (created_at, uploaded_at,
granted_at, last_sync_time, chat timestamp) and the access-statistics columns
(is_accessed, access_count) are not modelled: no claim below concerns them.
-/

/-! ## Small string helpers with Python / SQLite semantics -/

/-- ASCII lower-casing of a single character, as SQLite folds case in LIKE
(only the ASCII range A-Z is folded). -/
def asciiLowerChar (c : Char) : Char :=
  if 65 ≤ c.toNat ∧ c.toNat ≤ 90 then Char.ofNat (c.toNat + 32) else c

/-- ASCII upper-casing of a single character. -/
def asciiUpperChar (c : Char) : Char :=
  if 97 ≤ c.toNat ∧ c.toNat ≤ 122 then Char.ofNat (c.toNat - 32) else c

/-- Python str.lower, modelled for the ASCII range (all strings the claims
involve are ASCII; Python folds the same way there). -/
def pyLower (t : String) : String :=
  String.mk (t.data.map asciiLowerChar)

/-- The whitespace characters removed by Python str.strip. -/
def isPySpace (c : Char) : Bool :=
  c == ' ' || c == '\t' || c == '\n' || c == '\r' ||
    c == Char.ofNat 11 || c == Char.ofNat 12

/-- Python str.strip. -/
def pyStrip (t : String) : String :=
  String.mk (((t.data.dropWhile isPySpace).reverse.dropWhile isPySpace).reverse)

/-- charsStartWith needle hay: does hay begin with needle. -/
def charsStartWith : List Char → List Char → Bool
  | [], _ => true
  | _ :: _, [] => false
  | a :: as, b :: bs => a == b && charsStartWith as bs

/-- Membership of needle as a contiguous substring of hay: the Python
`needle in hay` test on strings. -/
def charsContains (needle : List Char) : List Char → Bool
  | [] => charsStartWith needle []
  | c :: rest => charsStartWith needle (c :: rest) || charsContains needle rest

/-- Python `needle in hay` on strings. -/
def pyContains (hay needle : String) : Bool :=
  charsContains needle.data hay.data

/-- Python slicing text[:k] where k may be negative: a negative bound counts
from the end of the string and clamps at zero. -/
def pySliceTo (t : String) (k : Int) : String :=
  if 0 ≤ k then String.mk (t.data.take k.toNat)
  else String.mk (t.data.take ((t.length : Int) + k).toNat)

/-- Python str.title on a character list; the boolean carries whether the
previous character was alphabetic. -/
def pyTitleAux : List Char → Bool → List Char
  | [], _ => []
  | c :: rest, prevAlpha =>
    let alpha := (decide (97 ≤ c.toNat) && decide (c.toNat ≤ 122)) ||
                 (decide (65 ≤ c.toNat) && decide (c.toNat ≤ 90))
    (if alpha then (if prevAlpha then asciiLowerChar c else asciiUpperChar c) else c)
      :: pyTitleAux rest alpha

/-- Python str.title (ASCII range). -/
def pyTitle (t : String) : String :=
  String.mk (pyTitleAux t.data false)

/-! ## SHA-256 (hashlib.sha256(...).hexdigest() used by
DatabaseManager._hash_password) -/

/-- 32-bit right rotation. -/
def rotr32 (x n : Nat) : Nat :=
  ((x >>> n) ||| (x <<< (32 - n))) % 4294967296

/-- UTF-8 encoding of one code point (Python str.encode). -/
def utf8EncodeChar (c : Char) : List Nat :=
  let n := c.toNat
  if n < 128 then [n]
  else if n < 2048 then [192 ||| (n >>> 6), 128 ||| (n &&& 63)]
  else if n < 65536 then
    [224 ||| (n >>> 12), 128 ||| ((n >>> 6) &&& 63), 128 ||| (n &&& 63)]
  else
    [240 ||| (n >>> 18), 128 ||| ((n >>> 12) &&& 63),
     128 ||| ((n >>> 6) &&& 63), 128 ||| (n &&& 63)]

/-- UTF-8 bytes of a string. -/
def strBytes (t : String) : List Nat :=
  t.data.flatMap utf8EncodeChar

/-- The 64 SHA-256 round constants, written in decimal. -/
def sha256K : List Nat :=
  [1116352408, 1899447441, 3049323471, 3921009573, 961987163,
   1508970993, 2453635748, 2870763221, 3624381080, 310598401,
   607225278, 1426881987, 1925078388, 2162078206, 2614888103,
   3248222580, 3835390401, 4022224774, 264347078, 604807628,
   770255983, 1249150122, 1555081692, 1996064986, 2554220882,
   2821834349, 2952996808, 3210313671, 3336571891, 3584528711,
   113926993, 338241895, 666307205, 773529912, 1294757372,
   1396182291, 1695183700, 1986661051, 2177026350, 2456956037,
   2730485921, 2820302411, 3259730800, 3345764771, 3516065817,
   3600352804, 4094571909, 275423344, 430227734, 506948616,
   659060556, 883997877, 958139571, 1322822218, 1537002063,
   1747873779, 1955562222, 2024104815, 2227730452, 2361852424,
   2428436474, 2756734187, 3204031479, 3329325298]

/-- The SHA-256 initial hash value, written in decimal. -/
def sha256H0 : List Nat :=
  [1779033703, 3144134277, 1013904242, 2773480762, 1359893119,
   2600822924, 528734635, 1541459225]

/-- Padding of the message to a multiple of 64 bytes with the 0x80 marker and
the big-endian 64-bit bit length. -/
def sha256Pad (msg : List Nat) : List Nat :=
  let len := msg.length
  let bitLen := 8 * len
  let padZeros := (119 - (len % 64)) % 64
  msg ++ [128] ++ List.replicate padZeros 0 ++
    (List.range 8).map (fun i => (bitLen >>> (8 * (7 - i))) &&& 255)

/-- Big-endian grouping of bytes into 32-bit words. -/
def bytesToWords : List Nat → List Nat
  | a :: b :: c :: d :: rest =>
    ((a <<< 24) ||| (b <<< 16) ||| (c <<< 8) ||| d) :: bytesToWords rest
  | _ => []

/-- Split a word list into the 16-word blocks of SHA-256; the fuel argument
makes the recursion structural so that it reduces inside the kernel. -/
def chunksOf16Aux : Nat → List Nat → List (List Nat)
  | 0, _ => []
  | _, [] => []
  | fuel + 1, x :: rest => (x :: rest.take 15) :: chunksOf16Aux fuel (rest.drop 15)

/-- Split a word list into the 16-word blocks of SHA-256. -/
def chunksOf16 (l : List Nat) : List (List Nat) :=
  chunksOf16Aux l.length l

/-- The two small sigma functions of the message schedule. -/
def smallSigma0 (x : Nat) : Nat := (rotr32 x 7) ^^^ (rotr32 x 18) ^^^ (x >>> 3)

/-- Second small sigma function. -/
def smallSigma1 (x : Nat) : Nat := (rotr32 x 17) ^^^ (rotr32 x 19) ^^^ (x >>> 10)

/-- The two big sigma functions of the compression loop. -/
def bigSigma0 (x : Nat) : Nat := (rotr32 x 2) ^^^ (rotr32 x 13) ^^^ (rotr32 x 22)

/-- Second big sigma function. -/
def bigSigma1 (x : Nat) : Nat := (rotr32 x 6) ^^^ (rotr32 x 11) ^^^ (rotr32 x 25)

/-- The choice function of SHA-256. -/
def chFun (x y z : Nat) : Nat := (x &&& y) ^^^ ((x ^^^ 4294967295) &&& z)

/-- The majority function of SHA-256. -/
def majFun (x y z : Nat) : Nat := (x &&& y) ^^^ (x &&& z) ^^^ (y &&& z)

/-- Extend a 16-word block by the given number of schedule words. -/
def buildSchedule (w : List Nat) : Nat → List Nat
  | 0 => w
  | n + 1 =>
    let ln := w.length
    buildSchedule
      (w ++ [(smallSigma1 (w.getD (ln - 2) 0) + w.getD (ln - 7) 0 +
              smallSigma0 (w.getD (ln - 15) 0) + w.getD (ln - 16) 0) % 4294967296]) n

/-- One round of the SHA-256 compression function on the 8-register state. -/
def sha256Round (st : Nat × Nat × Nat × Nat × Nat × Nat × Nat × Nat) (k w : Nat) :
    Nat × Nat × Nat × Nat × Nat × Nat × Nat × Nat :=
  match st with
  | (a, b, c, d, e, f, g, h) =>
    let t1 := (h + bigSigma1 e + chFun e f g + k + w) % 4294967296
    let t2 := (bigSigma0 a + majFun a b c) % 4294967296
    ((t1 + t2) % 4294967296, a, b, c, (d + t1) % 4294967296, e, f, g)

/-- Compress one 16-word block into the running 8-word hash. -/
def sha256Compress (h : List Nat) (chunk : List Nat) : List Nat :=
  let w := buildSchedule chunk 48
  let st0 := (h.getD 0 0, h.getD 1 0, h.getD 2 0, h.getD 3 0,
              h.getD 4 0, h.getD 5 0, h.getD 6 0, h.getD 7 0)
  match (sha256K.zip w).foldl (fun st kw => sha256Round st kw.1 kw.2) st0 with
  | (a, b, c, d, e, f, g, hh) =>
    [(h.getD 0 0 + a) % 4294967296, (h.getD 1 0 + b) % 4294967296,
     (h.getD 2 0 + c) % 4294967296, (h.getD 3 0 + d) % 4294967296,
     (h.getD 4 0 + e) % 4294967296, (h.getD 5 0 + f) % 4294967296,
     (h.getD 6 0 + g) % 4294967296, (h.getD 7 0 + hh) % 4294967296]

/-- SHA-256 of a byte list, as the list of the 8 hash words. -/
def sha256Words (msg : List Nat) : List Nat :=
  (chunksOf16 (bytesToWords (sha256Pad msg))).foldl sha256Compress sha256H0

/-- One lowercase hexadecimal digit. -/
def hexDigit (n : Nat) : Char :=
  if n < 10 then Char.ofNat (48 + n) else Char.ofNat (87 + n)

/-- Lowercase hexadecimal rendering of one 32-bit word. -/
def word32ToHex (w : Nat) : List Char :=
  (List.range 8).map (fun i => hexDigit ((w >>> (4 * (7 - i))) &&& 15))

/-- hashlib.sha256(t.encode()).hexdigest(). -/
def sha256hex (t : String) : String :=
  String.mk ((sha256Words (strBytes t)).flatMap word32ToHex)

/-- DatabaseManager._hash_password. -/
def hashPassword (password : String) : String :=
  sha256hex password

/-- Sanity anchor for the SHA-256 embedding: the known digest of the default
admin password literal. -/
theorem sha256hex_admin123 :
    sha256hex "admin123" =
      "240be518fabd2724ddb6f04eeb1da5967448d7e831c08c8fa822809f74c720a9" := by
  decide

/-! ## Data model (database/models.py, init_database schema)

The permissions table is declared with only the AUTOINCREMENT primary key
id; there is no UNIQUE constraint on (user_id, resource_id), and likewise
the resources table has no UNIQUE constraint on url.  These schema facts
drive the embedding of INSERT OR REPLACE below. -/

/-- A row of the users table (timestamp column elided). -/
structure UserRow where
  id : Nat
  username : String
  passwordHash : String
  role : String
deriving Repr, DecidableEq

/-- A row of the resources table (timestamp and access-statistics columns
elided). -/
structure ResourceRow where
  id : Nat
  name : String
  url : String
  fileType : String
  uploadedBy : String
  extractedText : Option String
deriving Repr, DecidableEq

/-- A row of the permissions table (granted_at elided). -/
structure PermissionRow where
  id : Nat
  userId : Nat
  resourceId : Nat
  canAccess : Bool
  grantedBy : String
deriving Repr, DecidableEq

/-- A row of the chat_history table (timestamp elided). -/
structure ChatRow where
  id : Nat
  userId : Nat
  message : String
  response : String
deriving Repr, DecidableEq

/-- The four tables plus the AUTOINCREMENT counters. -/
structure DBState where
  users : List UserRow
  resources : List ResourceRow
  permissions : List PermissionRow
  chatHistory : List ChatRow
  nextUserId : Nat
  nextResourceId : Nat
  nextPermissionId : Nat
  nextChatId : Nat
deriving Repr, DecidableEq

/-! ## Database operations (database/models.py) -/

/-- DatabaseManager.init_database: the CREATE TABLE IF NOT EXISTS statements
preserve existing rows; then a default admin account is inserted when no row
with username admin exists.  The existence check is on the username only,
not on the role. -/
def init_database (s : DBState) : DBState :=
  if s.users.any (fun u => u.username == "admin") then s
  else
    { s with
      users := s.users ++
        [{ id := s.nextUserId, username := "admin",
           passwordHash := hashPassword "admin123", role := "admin" }],
      nextUserId := s.nextUserId + 1 }

/-- The statement INSERT OR REPLACE INTO permissions (user_id, resource_id,
can_access, granted_by) VALUES (?, ?, ?, ?).  The only uniqueness constraint
of the permissions table is its AUTOINCREMENT primary key, and the INSERT
supplies no id value, so the OR REPLACE clause never meets a conflicting row:
by SQLite semantics the statement behaves as a plain INSERT appending a fresh
row. -/
def insertOrReplacePermission (s : DBState) (uid rid : Nat) (canAccess : Bool)
    (grantedBy : String) : DBState :=
  { s with
    permissions := s.permissions ++
      [{ id := s.nextPermissionId, userId := uid, resourceId := rid,
         canAccess := canAccess, grantedBy := grantedBy }],
    nextPermissionId := s.nextPermissionId + 1 }

/-- PermissionManager.grant_permission. -/
def grant_permission (s : DBState) (uid rid : Nat) (grantedBy : String) : DBState :=
  insertOrReplacePermission s uid rid true grantedBy

/-- PermissionManager.revoke_permission. -/
def revoke_permission (s : DBState) (uid rid : Nat) (revokedBy : String) : DBState :=
  insertOrReplacePermission s uid rid false revokedBy

/-- SQL COALESCE of two nullable values. -/
def coalesce (a b : Option String) : Option String :=
  match a with
  | some x => some x
  | none => b

/-- The upsert phase of ResourceManager.add_resource: SELECT id FROM resources
WHERE url = ?, then either UPDATE ... SET name, file_type, uploaded_by,
extracted_text = COALESCE(?, extracted_text) WHERE url = ? (the UPDATE touches
every row whose url matches) or INSERT a fresh row. -/
def upsertResources (s : DBState) (name url fileType uploadedBy : String)
    (extractedText : Option String) : DBState :=
  if s.resources.any (fun r => r.url == url) then
    { s with
      resources := s.resources.map (fun r =>
        if r.url == url then
          { r with name := name, fileType := fileType, uploadedBy := uploadedBy,
                   extractedText := coalesce extractedText r.extractedText }
        else r) }
  else
    { s with
      resources := s.resources ++
        [{ id := s.nextResourceId, name := name, url := url,
           fileType := fileType, uploadedBy := uploadedBy,
           extractedText := extractedText }],
      nextResourceId := s.nextResourceId + 1 }

/-- ResourceManager.add_resource: upsert by url, re-read the row id, then
grant the uploader access via INSERT OR REPLACE when the uploader exists as a
user.  When the re-read finds no row the transaction is rolled back and the
state is unchanged (the code returns False there). -/
def add_resource (s : DBState) (name url fileType uploadedBy : String)
    (extractedText : Option String) : DBState :=
  let s1 := upsertResources s name url fileType uploadedBy extractedText
  match s1.resources.find? (fun r => r.url == url) with
  | none => s
  | some r =>
    match s1.users.find? (fun u => u.username == uploadedBy) with
    | some u => insertOrReplacePermission s1 u.id r.id true uploadedBy
    | none => s1

/-- ChatHistoryManager.save_chat_history. -/
def save_chat_history (s : DBState) (userId : Nat) (message response : String) :
    DBState :=
  { s with
    chatHistory := s.chatHistory ++
      [{ id := s.nextChatId, userId := userId, message := message,
         response := response }],
    nextChatId := s.nextChatId + 1 }

/-! ## Access resolver (ResourceManager.get_user_accessible_resources) -/

/-- The SQLite test extracted_text LIKE chars of the pattern start with the
six literal characters of the ERROR tag; SQLite LIKE folds ASCII case. -/
def likeErrorTag (t : String) : Bool :=
  (t.data.take 6).map asciiLowerChar == "[error".data

/-- The text filter of both resolver queries: extracted_text IS NOT NULL AND
extracted_text != '' AND extracted_text NOT LIKE '[ERROR%'. -/
def passesTextFilter (r : ResourceRow) : Bool :=
  match r.extractedText with
  | none => false
  | some t => t != "" && !(likeErrorTag t)

/-- The role lookup of get_user_accessible_resources: SELECT role FROM users
WHERE id = ?; a missing row defaults to the user role. -/
def lookupUserRole (s : DBState) (uid : Nat) : String :=
  match s.users.find? (fun u => u.id == uid) with
  | some u => u.role
  | none => "user"

/-- ResourceManager.get_user_accessible_resources.  Admins receive every
resource passing the text filter; other roles receive the INNER JOIN of
resources with their can_access = TRUE permission rows (one output row per
matching join pair, as in SQL), under the same text filter. -/
def get_user_accessible_resources (s : DBState) (uid : Nat) : List ResourceRow :=
  if lookupUserRole s uid = "admin" then
    s.resources.filter passesTextFilter
  else
    (s.resources.filter passesTextFilter).flatMap (fun r =>
      (s.permissions.filter (fun p =>
        p.userId == uid && p.resourceId == r.id && p.canAccess)).map (fun _ => r))

/-! ## Ingestion step of GoogleDriveService.sync_folder (lines 396-413)

After extraction the sync loop replaces an empty or whitespace-only
extraction result by a bracketed placeholder and always hands a non-null
string to add_resource; the bounded retry loop around the database write
repeats the same pure write and is not modelled. -/

/-- The per-file ingestion step of sync_folder. -/
def sync_ingest (s : DBState) (fileName fileUrl fileType uploadedBy : String)
    (extractedRaw : String) : DBState :=
  let extractedText :=
    if extractedRaw == "" || pyStrip extractedRaw == "" then
      "[No text content found in " ++ fileName ++ "]"
    else extractedRaw
  add_resource s fileName fileUrl fileType uploadedBy (some extractedText)

/-! ## Configuration constants (config/settings.py) -/

/-- Config.MAX_CONTEXT_LENGTH. -/
def maxContextLength : Nat := 800

/-- Config.TEXT_EXTRACTION_LIMIT. -/
def textExtractionLimit : Nat := 500

/-! ## Context assembler (ChatbotService.create_context_from_resources) -/

/-- The literal sentinel returned when no resource list is supplied. -/
def emptyContextSentinel : String := "No documents available for reference."

/-- The Python truthiness-plus-strip test
if text and len(text.strip()) > 0 on a nullable text. -/
def pyTruthyText : Option String → Bool
  | none => false
  | some t => if t == "" then false else decide (0 < (pyStrip t).length)

/-- One formatted context entry. -/
def contextEntry (name text : String) : String :=
  "Document: " ++ name ++ "\nContent: " ++ text ++ "..."

/-- The accumulation loop of create_context_from_resources.  The total-length
counter and the break on a non-positive remaining budget follow the source;
the per-document slice bound min(TEXT_EXTRACTION_LIMIT, remaining_length - 100)
is an Int because Python slicing accepts (and the source can produce) a
negative bound. -/
def contextLoop : List (String × Option String) → Nat → List String → List String
  | [], _, parts => parts
  | (name, text) :: rest, totalLength, parts =>
    if pyTruthyText text then
      let t := text.getD ""
      let remainingLength : Int := (maxContextLength : Int) - (totalLength : Int)
      if remainingLength ≤ 0 then parts
      else
        let limitedText :=
          pySliceTo t (min (textExtractionLimit : Int) (remainingLength - 100))
        contextLoop rest (totalLength + limitedText.length + name.length + 50)
          (parts ++ [contextEntry name limitedText])
    else contextLoop rest totalLength parts

/-- ChatbotService.create_context_from_resources: sentinel for an empty input
list, else the loop over the first two entries only, joined by blank lines. -/
def create_context_from_resources (resources : List (String × Option String)) :
    String :=
  if resources.isEmpty then emptyContextSentinel
  else String.intercalate "\n\n" (contextLoop (resources.take 2) 0 [])

/-! ## Chatbot service (services/ai/chatbot_service.py) -/

/-- The off-topic keyword denylist of is_document_related_question. -/
def nonDocumentKeywords : List String :=
  ["weather", "cook", "recipe", "movie", "music", "sports",
   "general knowledge", "trivia", "personal", "private"]

/-- The fixed refusal string of get_response_with_fallback. -/
def refusalString : String :=
  "I can only answer questions related to the documents I have access to. Please ask me about the content of the provided documents."

/-- The fallback string used when validate_response rejects a model answer. -/
def troubleString : String :=
  "I\x27m having trouble processing your question. Please try rephrasing or ask about the documents I have access to."

/-- ChatbotService.is_document_related_question. -/
def is_document_related_question (message context : String) : Bool :=
  if context == "" || pyStrip context == emptyContextSentinel then false
  else if nonDocumentKeywords.any (fun kw => pyContains (pyLower message) kw) then
    false
  else true

/-- The hedging-phrase list of validate_response (matched, as in the source,
against the lower-cased response although the phrases carry capitals). -/
def errorIndicators : List String :=
  ["I cannot", "I don\x27t have", "I\x27m unable", "I don\x27t know",
   "I\x27m not sure", "I cannot provide", "I don\x27t have access"]

/-- ChatbotService.validate_response. -/
def validate_response (response : String) : Bool :=
  if errorIndicators.any (fun ind => pyContains (pyLower response) ind) then false
  else if (pyStrip response).length < 10 then false
  else true

/-- ChatbotService._create_system_prompt (the short template). -/
def createSystemPromptSvc (context userRole : String) : String :=
  "You are a Tech Mahindra AI assistant. Answer questions based on these documents:\n\n"
    ++ context ++
    "\n\nRules: Only answer questions about the documents above. If unrelated, say: \x27I can only answer questions about the provided documents.\x27 Be concise and professional.\n\nUser: "
    ++ pyTitle userRole

/-- ChatbotService.generate_response, with the completion capability passed in
as a function that either returns the model text or raises.  The Bool records
whether the capability was invoked. -/
def generate_response (completion : String → String → Except String String)
    (message context userRole : String) : String × Bool :=
  let systemPrompt := createSystemPromptSvc context userRole
  match completion systemPrompt message with
  | Except.ok content => (content, true)
  | Except.error e =>
    if pyContains e "rate_limit_exceeded" || pyContains e "Request too large" then
      ("The request was too large. Please try asking a more specific question about a single document, or contact your administrator to optimize the document processing.", true)
    else
      ("Sorry, I encountered an error while processing your request: " ++ e, true)

/-- The outcome of get_response_with_fallback: the returned string and whether
the completion capability was invoked. -/
structure FallbackOutcome where
  response : String
  modelCalled : Bool
deriving Repr, DecidableEq

/-- ChatbotService.get_response_with_fallback: relevance gate, model call,
response validation. -/
def get_response_with_fallback (completion : String → String → Except String String)
    (message context userRole : String) : FallbackOutcome :=
  if !(is_document_related_question message context) then
    { response := refusalString, modelCalled := false }
  else
    let rc := generate_response completion message context userRole
    if !(validate_response rc.1) then
      { response := troubleString, modelCalled := rc.2 }
    else
      { response := rc.1, modelCalled := rc.2 }

/-! ## Chat interface answering path (ChatInterface.get_chatbot_response) -/

/-- The configuration error string returned when no API key is set. -/
def apiKeyMissingMsg : String :=
  "❌ Please configure your Groq API key in the API Configuration section above."

/-- The user-facing translation of a completion failure. -/
def errorResponseMsg (e : String) : String :=
  "Sorry, I encountered an error: " ++ e

/-- The inline database-context construction of ChatInterface
get_chatbot_response: one entry per accessible resource with truthy,
non-whitespace text, each sliced to its first 2000 characters; the sentinel
when the resource list itself is empty.  (The source guards len(resource) >= 9
on the positional row tuple; full rows always satisfy it.) -/
def dbContextFromResources (rs : List ResourceRow) : String :=
  if rs.isEmpty then emptyContextSentinel
  else
    String.intercalate "\n\n"
      ((rs.filter (fun r => pyTruthyText r.extractedText)).map (fun r =>
        "Document: " ++ r.name ++ "\nContent: "
          ++ String.mk ((r.extractedText.getD "").data.take 2000) ++ "..."))

/-- The ChromaDB enrichment step: a query failure is swallowed, a truthy
result other than the no-match sentinel is appended to the database
context. -/
def combineChroma (context : String) (chromaResult : Except String String) : String :=
  match chromaResult with
  | Except.error _ => context
  | Except.ok c =>
    if c != "" && c != "No relevant documents found." then
      context ++ "\n\nRelevant Context from Vector Search:\n" ++ c
    else context

/-- The strict system prompt of ChatInterface.get_chatbot_response.  The long
static instruction passages are elided: the prompt embeds the user role and
the assembled context verbatim, which is all any claim depends on. -/
def createSystemPromptUI (context userRole : String) : String :=
  "You are a specialized AI assistant for Tech Mahindra that can ONLY answer questions based on the specific documents and data you have been provided access to.\n\nCRITICAL RESTRICTIONS: [static instruction text] ROLE-BASED ACCESS: You have "
    ++ userRole ++
    " access and can only discuss documents you have permission to view.\n\nRESPONSE PROTOCOL: [static instruction text]\n\nDOCUMENT CONTEXT:\n"
    ++ context ++
    "\n\nBEHAVIOR GUIDELINES: [static instruction text]"

/-- The outcome of one call of ChatInterface.get_chatbot_response: the string
handed back to the rendering layer, the chat_history rows appended by the
call, and whether the completion capability was invoked. -/
structure ChatOutcome where
  response : String
  savedHistory : List (Nat × String × String)
  modelCalled : Bool
deriving Repr, DecidableEq

/-- ChatInterface.get_chatbot_response.  The session API key, the session role,
the vector-index query result and the completion capability are explicit
inputs; the completion call is the modelled fallible step, and the enclosing
try/except turns its failure into the literal error string, saves it like any
response, and returns it.  The second component is the database state after
the call. -/
def get_chatbot_response (s : DBState) (apiKey : String) (sessionRole : Option String)
    (chromaResult : Except String String)
    (completion : String → String → Except String String)
    (message : String) (userId : Nat) : ChatOutcome × DBState :=
  if apiKey == "" then
    ({ response := apiKeyMissingMsg, savedHistory := [], modelCalled := false }, s)
  else
    let userRole :=
      match sessionRole with
      | some rr => if rr == "" then "user" else rr
      | none => "user"
    let userResources := get_user_accessible_resources s userId
    let context := combineChroma (dbContextFromResources userResources) chromaResult
    let systemPrompt := createSystemPromptUI context userRole
    match completion systemPrompt message with
    | Except.ok content =>
      ({ response := content, savedHistory := [(userId, message, content)],
         modelCalled := true },
       save_chat_history s userId message content)
    | Except.error e =>
      ({ response := errorResponseMsg e,
         savedHistory := [(userId, message, errorResponseMsg e)],
         modelCalled := true },
       save_chat_history s userId message (errorResponseMsg e))

/-! ## Concrete fixtures used by counterexamples and witnesses -/

/-- An empty database (fresh AUTOINCREMENT counters start at 1). -/
def emptyDB : DBState :=
  { users := [], resources := [], permissions := [], chatHistory := [],
    nextUserId := 1, nextResourceId := 1, nextPermissionId := 1, nextChatId := 1 }

/-- A resource row whose stored text starts with a lower-case error tag. -/
def lowerErrorRow : ResourceRow :=
  { id := 1, name := "doc", url := "u1", fileType := "pdf",
    uploadedBy := "root", extractedText := some "[error x]" }

/-- A state with an admin account and the lower-case-error-tagged resource. -/
def lowerErrorState : DBState :=
  { users := [{ id := 1, username := "root", passwordHash := "x", role := "admin" }],
    resources := [lowerErrorRow],
    permissions := [], chatHistory := [],
    nextUserId := 2, nextResourceId := 2, nextPermissionId := 1, nextChatId := 1 }

/-- A state with an admin, a non-admin user bob (id 2), and one readable
resource, used by the grant/revoke scenario. -/
def grantRevokeState : DBState :=
  { users := [{ id := 1, username := "admin", passwordHash := "x", role := "admin" },
              { id := 2, username := "bob", passwordHash := "y", role := "user" }],
    resources := [{ id := 1, name := "doc", url := "u1", fileType := "pdf",
                    uploadedBy := "admin", extractedText := some "good text" }],
    permissions := [], chatHistory := [],
    nextUserId := 3, nextResourceId := 2, nextPermissionId := 1, nextChatId := 1 }

/-- The sentinel an aborted PDF extraction produces in the source. -/
def pdfFailString : String := "[PDF extraction error: timeout]"

/-- A resource row with previously stored good extracted text. -/
def goodRow : ResourceRow :=
  { id := 1, name := "doc", url := "u1", fileType := "pdf",
    uploadedBy := "admin", extractedText := some "good telecom text" }

/-- A state holding the good-text resource, used by the failed-re-extraction
scenario. -/
def goodTextState : DBState :=
  { users := [{ id := 1, username := "admin", passwordHash := "x", role := "admin" }],
    resources := [goodRow],
    permissions := [{ id := 1, userId := 1, resourceId := 1, canAccess := true,
                      grantedBy := "admin" }],
    chatHistory := [],
    nextUserId := 2, nextResourceId := 2, nextPermissionId := 2, nextChatId := 1 }

/-- The resource list that drives the budget overflow: the first entry leaves
a remaining budget of exactly 50, strictly between 0 and 100, so the second
slice bound min(500, remaining - 100) is the negative number -50 and Python
slicing keeps all but the last 50 characters of the 3000-character
document. -/
def contextBudgetFailingInput : List (String × Option String) :=
  [(String.mk (List.replicate 200 'a'), some (String.mk (List.replicate 600 'b'))),
   ("b", some (String.mk (List.replicate 3000 'c')))]

/-- A state whose only user is named admin but was demoted to the user role. -/
def demotedAdminState : DBState :=
  { users := [{ id := 1, username := "admin", passwordHash := "x", role := "user" }],
    resources := [], permissions := [], chatHistory := [],
    nextUserId := 2, nextResourceId := 1, nextPermissionId := 1, nextChatId := 1 }

/-- The off-topic probe message of the refusal scenario. -/
def weatherMessage : String := "what\x27s the weather today?"

/-! ## Helper lemmas about the resolver and the stores -/

/-- Membership in the admin branch of the resolver. -/
theorem mem_resolve_admin (s : DBState) (uid : Nat) (r : ResourceRow)
    (h : lookupUserRole s uid = "admin") :
    r ∈ get_user_accessible_resources s uid ↔
      r ∈ s.resources ∧ passesTextFilter r = true := by
  unfold get_user_accessible_resources
  rw [if_pos h]
  exact List.mem_filter

/-- Membership in the permission-join branch of the resolver. -/
theorem mem_resolve_nonadmin (s : DBState) (uid : Nat) (r : ResourceRow)
    (h : lookupUserRole s uid ≠ "admin") :
    r ∈ get_user_accessible_resources s uid ↔
      r ∈ s.resources ∧ passesTextFilter r = true ∧
        ∃ p ∈ s.permissions,
          p.userId = uid ∧ p.resourceId = r.id ∧ p.canAccess = true := by
  unfold get_user_accessible_resources
  rw [if_neg h]
  constructor
  · intro hr
    rcases List.mem_flatMap.mp hr with ⟨r2, hr2, hmap⟩
    rcases List.mem_map.mp hmap with ⟨p, hp, hpe⟩
    subst hpe
    rcases List.mem_filter.mp hr2 with ⟨hr2mem, hr2pass⟩
    rcases List.mem_filter.mp hp with ⟨hpmem, hpcond⟩
    simp only [Bool.and_eq_true, beq_iff_eq] at hpcond
    exact ⟨hr2mem, hr2pass, p, hpmem, hpcond.1.1, hpcond.1.2, hpcond.2⟩
  · rintro ⟨hmem, hpass, p, hp, hpu, hpr, hpc⟩
    refine List.mem_flatMap.mpr ⟨r, List.mem_filter.mpr ⟨hmem, hpass⟩, ?_⟩
    refine List.mem_map.mpr ⟨p, List.mem_filter.mpr ⟨hp, ?_⟩, rfl⟩
    simp [hpu, hpr, hpc]

/-- A user id matching no stored row resolves to the default user role. -/
theorem lookupUserRole_not_found (s : DBState) (uid : Nat)
    (h : ∀ u ∈ s.users, u.id ≠ uid) : lookupUserRole s uid = "user" := by
  unfold lookupUserRole
  rw [List.find?_eq_none.mpr (fun u hu => by simpa using h u hu)]

/-- The update applied by the UPDATE branch of add_resource to a matching
row. -/
def upsertRowUpdate (name fileType uploadedBy : String) (txt : Option String)
    (url : String) (r : ResourceRow) : ResourceRow :=
  if r.url == url then
    { r with name := name, fileType := fileType, uploadedBy := uploadedBy,
             extractedText := coalesce txt r.extractedText }
  else r

/-- The UPDATE branch leaves every url unchanged. -/
theorem upsertRowUpdate_url (name fileType uploadedBy : String)
    (txt : Option String) (url : String) (r : ResourceRow) :
    (upsertRowUpdate name fileType uploadedBy txt url r).url = r.url := by
  unfold upsertRowUpdate
  by_cases h : r.url == url
  · rw [if_pos h]
  · rw [if_neg h]

/-- The UPDATE branch leaves every id unchanged. -/
theorem upsertRowUpdate_id (name fileType uploadedBy : String)
    (txt : Option String) (url : String) (r : ResourceRow) :
    (upsertRowUpdate name fileType uploadedBy txt url r).id = r.id := by
  unfold upsertRowUpdate
  by_cases h : r.url == url
  · rw [if_pos h]
  · rw [if_neg h]

/-- When the url is already present, the upsert phase is exactly the row-wise
UPDATE. -/
theorem upsertResources_present (s : DBState) (name url fileType uploadedBy : String)
    (txt : Option String) (h : s.resources.any (fun r => r.url == url) = true) :
    (upsertResources s name url fileType uploadedBy txt).resources =
      s.resources.map (upsertRowUpdate name fileType uploadedBy txt url) := by
  unfold upsertResources upsertRowUpdate
  rw [if_pos h]

/-- Neither branch of the upsert phase touches users or permissions. -/
theorem upsertResources_users (s : DBState) (name url fileType uploadedBy : String)
    (txt : Option String) :
    (upsertResources s name url fileType uploadedBy txt).users = s.users ∧
    (upsertResources s name url fileType uploadedBy txt).permissions = s.permissions := by
  unfold upsertResources
  by_cases h : s.resources.any (fun r => r.url == url) = true
  · rw [if_pos h]; exact ⟨rfl, rfl⟩
  · rw [if_neg h]; exact ⟨rfl, rfl⟩

/-- INSERT OR REPLACE on permissions does not touch resources or users. -/
theorem insertOrReplacePermission_resources (s : DBState) (uid rid : Nat)
    (canAccess : Bool) (grantedBy : String) :
    (insertOrReplacePermission s uid rid canAccess grantedBy).resources = s.resources ∧
    (insertOrReplacePermission s uid rid canAccess grantedBy).users = s.users := by
  exact ⟨rfl, rfl⟩

/-- When the url is already present, add_resource performs exactly the
row-wise UPDATE on the resources table. -/
theorem add_resource_resources_present (s : DBState)
    (name url fileType uploadedBy : String) (txt : Option String)
    (h : s.resources.any (fun r => r.url == url) = true) :
    (add_resource s name url fileType uploadedBy txt).resources =
      s.resources.map (upsertRowUpdate name fileType uploadedBy txt url) := by
  have hres := upsertResources_present s name url fileType uploadedBy txt h
  have hfind :
      ((upsertResources s name url fileType uploadedBy txt).resources.find?
        (fun r => r.url == url)).isSome = true := by
    rcases List.any_eq_true.mp h with ⟨r0, hr0, hr0url⟩
    apply List.find?_isSome.mpr
    refine ⟨upsertRowUpdate name fileType uploadedBy txt url r0, ?_, ?_⟩
    · rw [hres]; exact List.mem_map.mpr ⟨r0, hr0, rfl⟩
    · rw [upsertRowUpdate_url]; exact hr0url
  rcases Option.isSome_iff_exists.mp hfind with ⟨rfound, hrfound⟩
  simp only [add_resource, hrfound]
  cases hu : (upsertResources s name url fileType uploadedBy txt).users.find?
      (fun u => u.username == uploadedBy) with
  | none => simpa using hres
  | some u => simpa [insertOrReplacePermission] using hres

/-- Whatever branch add_resource takes, the resulting resources table is the
upserted one or the unchanged one. -/
theorem add_resource_resources_cases (s : DBState)
    (name url fileType uploadedBy : String) (txt : Option String) :
    (add_resource s name url fileType uploadedBy txt).resources =
      (upsertResources s name url fileType uploadedBy txt).resources ∨
    (add_resource s name url fileType uploadedBy txt).resources = s.resources := by
  cases hf : (upsertResources s name url fileType uploadedBy txt).resources.find?
      (fun r => r.url == url) with
  | none => right; simp [add_resource, hf]
  | some rfound =>
    cases hu : (upsertResources s name url fileType uploadedBy txt).users.find?
        (fun u => u.username == uploadedBy) with
    | none => left; simp [add_resource, hf, hu]
    | some u => left; simp [add_resource, hf, hu, insertOrReplacePermission]

/-- add_resource never removes permission rows. -/
theorem add_resource_permissions_mono (s : DBState)
    (name url fileType uploadedBy : String) (txt : Option String)
    (p : PermissionRow) (hp : p ∈ s.permissions) :
    p ∈ (add_resource s name url fileType uploadedBy txt).permissions := by
  have hperm := (upsertResources_users s name url fileType uploadedBy txt).2
  cases hf : (upsertResources s name url fileType uploadedBy txt).resources.find?
      (fun r => r.url == url) with
  | none => simpa [add_resource, hf] using hp
  | some rfound =>
    cases hu : (upsertResources s name url fileType uploadedBy txt).users.find?
        (fun u => u.username == uploadedBy) with
    | none => simp only [add_resource, hf, hu]; rw [hperm]; exact hp
    | some u =>
      simp only [add_resource, hf, hu, insertOrReplacePermission, List.mem_append]
      rw [hperm]
      exact Or.inl hp

/-- add_resource does not change the users table. -/
theorem add_resource_users (s : DBState) (name url fileType uploadedBy : String)
    (txt : Option String) :
    (add_resource s name url fileType uploadedBy txt).users = s.users := by
  have husers := (upsertResources_users s name url fileType uploadedBy txt).1
  cases hf : (upsertResources s name url fileType uploadedBy txt).resources.find?
      (fun r => r.url == url) with
  | none => simp [add_resource, hf]
  | some rfound =>
    cases hu : (upsertResources s name url fileType uploadedBy txt).users.find?
        (fun u => u.username == uploadedBy) with
    | none => simp only [add_resource, hf, hu]; exact husers
    | some u =>
      simp only [add_resource, hf, hu, insertOrReplacePermission]
      exact husers

/-! ## Helper lemmas about the context assembler -/

/-- The length of a string built from a character list. -/
theorem String_mk_length (l : List Char) : (String.mk l).length = l.length := rfl

/-- Dropping leading whitespace from a replicate of a non-space character is
the identity. -/
theorem dropWhile_isPySpace_replicate (m : Nat) (c : Char) (h : isPySpace c = false) :
    (List.replicate m c).dropWhile isPySpace = List.replicate m c := by
  cases m with
  | zero => rfl
  | succ k => simp [List.replicate_succ, List.dropWhile_cons, h]

/-- Stripping a replicate of a non-space character is the identity. -/
theorem pyStrip_replicate (n : Nat) (c : Char) (h : isPySpace c = false) :
    pyStrip (String.mk (List.replicate n c)) = String.mk (List.replicate n c) := by
  unfold pyStrip
  rw [dropWhile_isPySpace_replicate n c h, List.reverse_replicate,
    dropWhile_isPySpace_replicate n c h, List.reverse_replicate]

/-- A non-empty replicate of a non-space character passes the truthiness and
strip test of the context loop. -/
theorem pyTruthyText_replicate (n : Nat) (c : Char) (h : isPySpace c = false)
    (hn : 0 < n) :
    pyTruthyText (some (String.mk (List.replicate n c))) = true := by
  have hne : (String.mk (List.replicate n c) == "") = false := by
    apply beq_eq_false_iff_ne.mpr
    intro hcontra
    have hlen := congrArg String.length hcontra
    rw [String_mk_length, List.length_replicate,
      show ("" : String).length = 0 from rfl] at hlen
    omega
  simp only [pyTruthyText]
  rw [hne]
  simp only [Bool.false_eq_true, if_false]
  rw [pyStrip_replicate n c h]
  simp [String_mk_length, List.length_replicate, hn]

/-- The context loop on an entry passing the truthiness test, with the budget
not yet exhausted: the entry is appended and the counter advances. -/
theorem contextLoop_step_true (name t : String)
    (rest : List (String × Option String)) (total : Nat) (parts : List String)
    (htr : pyTruthyText (some t) = true)
    (hrem : ¬((maxContextLength : Int) - (total : Int) ≤ 0)) :
    contextLoop ((name, some t) :: rest) total parts =
      contextLoop rest
        (total + (pySliceTo t (min (textExtractionLimit : Int)
            ((maxContextLength : Int) - (total : Int) - 100))).length +
          name.length + 50)
        (parts ++ [contextEntry name (pySliceTo t (min (textExtractionLimit : Int)
            ((maxContextLength : Int) - (total : Int) - 100)))]) := by
  conv_lhs => rw [contextLoop]
  rw [htr]
  simp only [if_true, Option.getD_some]
  rw [if_neg hrem]

/-- The context loop skips every entry failing the truthiness test. -/
theorem contextLoop_all_skipped (l : List (String × Option String)) (total : Nat)
    (parts : List String) (h : ∀ p ∈ l, pyTruthyText p.2 = false) :
    contextLoop l total parts = parts := by
  induction l generalizing total parts with
  | nil => rfl
  | cons a rest ih =>
    obtain ⟨name, text⟩ := a
    conv_lhs => rw [contextLoop]
    rw [h (name, text) (List.mem_cons_self _ _)]
    simp only [Bool.false_eq_true, if_false]
    exact ih _ _ (fun p hp => h p (List.mem_cons_of_mem _ hp))

/-- Joining two strings with a separator. -/
theorem intercalate_pair (s a b : String) :
    String.intercalate s [a, b] = a ++ s ++ b := rfl

/-- The length of one formatted context entry. -/
theorem contextEntry_length (name text : String) :
    (contextEntry name text).length = name.length + text.length + 23 := by
  unfold contextEntry
  rw [String.length_append, String.length_append, String.length_append,
    String.length_append]
  have h1 : ("Document: " : String).length = 10 := rfl
  have h2 : ("\nContent: " : String).length = 10 := rfl
  have h3 : ("..." : String).length = 3 := rfl
  rw [h1, h2, h3]
  omega

/-! ## Claim theorems -/

/-- Claim C1, counterexample to the claim as stated: the stored text
[error x] is non-null, non-empty and does not start with the prefix [ERROR,
and the requesting user is an admin, so the claim places the resource in the
result; yet the resolver returns the empty list, because SQLite LIKE compares
the [ERROR tag ASCII-case-insensitively. -/
theorem C1_resolver_counterexample :
    (lowerErrorRow ∈ lowerErrorState.resources ∧
      lowerErrorRow.extractedText = some "[error x]" ∧
      ("[error x]" : String) ≠ "" ∧
      charsStartWith "[ERROR".data "[error x]".data = false ∧
      lookupUserRole lowerErrorState 1 = "admin") ∧
    get_user_accessible_resources lowerErrorState 1 = [] := by
  decide

/-- Claim C1 (amended: the comparison against the [ERROR prefix is
ASCII-case-insensitive, as SQLite LIKE folds case): an admin receives exactly
the resources passing the text filter; any other role receives exactly the
resources passing the text filter that carry a can_access = TRUE permission
row for this user; a user id matching no stored user resolves to the default
user role, hence the narrower rule. -/
theorem C1_access_resolver_rules (s : DBState) (uid : Nat) (r : ResourceRow) :
    (lookupUserRole s uid = "admin" →
      (r ∈ get_user_accessible_resources s uid ↔
        r ∈ s.resources ∧ passesTextFilter r = true)) ∧
    (lookupUserRole s uid ≠ "admin" →
      (r ∈ get_user_accessible_resources s uid ↔
        r ∈ s.resources ∧ passesTextFilter r = true ∧
          ∃ p ∈ s.permissions,
            p.userId = uid ∧ p.resourceId = r.id ∧ p.canAccess = true)) ∧
    ((∀ u ∈ s.users, u.id ≠ uid) → lookupUserRole s uid = "user") :=
  ⟨fun h => mem_resolve_admin s uid r h,
   fun h => mem_resolve_nonadmin s uid r h,
   fun h => lookupUserRole_not_found s uid h⟩

/-- Witness for C1_access_resolver_rules at a concrete state: the admin rule
admits the good-text resource. -/
theorem C1_access_resolver_rules_witness :
    goodRow ∈ get_user_accessible_resources goodTextState 1 :=
  ((C1_access_resolver_rules goodTextState 1 goodRow).1 (by decide)).mpr (by decide)

/-- Claim C2 (code bug): after grant_permission then revoke_permission on the
same (user, resource) pair, the permissions table holds both rows — the
schema has no UNIQUE(user_id, resource_id), so INSERT OR REPLACE never
replaces — and the resolver still returns the resource for the non-admin
user, because the join matches the surviving can_access = TRUE row.  The
claim requires exclusion; the code produces inclusion. -/
theorem C2_revoke_does_not_override :
    ((revoke_permission (grant_permission grantRevokeState 2 1 "admin") 2 1
        "admin").permissions.map (fun p => (p.userId, p.resourceId, p.canAccess)) =
      [(2, 1, true), (2, 1, false)]) ∧
    lookupUserRole (revoke_permission (grant_permission grantRevokeState 2 1 "admin")
        2 1 "admin") 2 ≠ "admin" ∧
    (get_user_accessible_resources
        (revoke_permission (grant_permission grantRevokeState 2 1 "admin") 2 1 "admin")
        2).map (fun r => r.id) = [1] := by
  decide

/-- Claim C5 (code bug): on this two-entry input the remaining budget before
the second document is 50, so the slice bound min(500, 50 - 100) is negative
and Python slicing keeps all but the last 50 of the 3000 characters; the
returned context has 3699 characters, far beyond MAX_CONTEXT_LENGTH even
after granting 900 characters of header overhead per included document. -/
theorem C5_budget_exceeded :
    (create_context_from_resources contextBudgetFailingInput).length = 3699 ∧
    maxContextLength + 2 * 900 <
      (create_context_from_resources contextBudgetFailingInput).length := by
  have h1 : pyTruthyText (some (String.mk (List.replicate 600 'b'))) = true :=
    pyTruthyText_replicate 600 'b' rfl (by norm_num)
  have h2 : pyTruthyText (some (String.mk (List.replicate 3000 'c'))) = true :=
    pyTruthyText_replicate 3000 'c' rfl (by norm_num)
  have hslice1 : pySliceTo (String.mk (List.replicate 600 'b')) 500 =
      String.mk (List.replicate 500 'b') := by
    unfold pySliceTo
    rw [if_pos (by decide)]
    have ht : ((500 : Int).toNat) = 500 := rfl
    rw [ht, List.take_replicate]
    have hm : min (500 : Nat) 600 = 500 := by omega
    rw [hm]
  have hslice2 : pySliceTo (String.mk (List.replicate 3000 'c')) (-50) =
      String.mk (List.replicate 2950 'c') := by
    unfold pySliceTo
    rw [if_neg (by decide)]
    rw [String_mk_length, List.length_replicate]
    have ht : ((((3000 : Nat) : Int) + (-50 : Int)).toNat) = 2950 := rfl
    rw [ht, List.take_replicate]
    have hm : min (2950 : Nat) 3000 = 2950 := by omega
    rw [hm]
  have key : create_context_from_resources contextBudgetFailingInput =
      contextEntry (String.mk (List.replicate 200 'a'))
          (String.mk (List.replicate 500 'b')) ++ "\n\n" ++
        contextEntry "b" (String.mk (List.replicate 2950 'c')) := by
    unfold create_context_from_resources contextBudgetFailingInput
    rw [if_neg (by decide)]
    rw [show ([(String.mk (List.replicate 200 'a'),
          some (String.mk (List.replicate 600 'b'))),
          ("b", some (String.mk (List.replicate 3000 'c')))].take 2) =
        [(String.mk (List.replicate 200 'a'),
          some (String.mk (List.replicate 600 'b'))),
          ("b", some (String.mk (List.replicate 3000 'c')))] from rfl]
    rw [contextLoop_step_true _ _ _ _ _ h1 (by decide)]
    rw [show min (textExtractionLimit : Int)
        ((maxContextLength : Int) - ((0 : Nat) : Int) - 100) = 500 from by decide]
    rw [hslice1, String_mk_length, List.length_replicate, String_mk_length,
      List.length_replicate]
    rw [contextLoop_step_true _ _ _ _ _ h2 (by decide)]
    rw [show min (textExtractionLimit : Int)
        ((maxContextLength : Int) - ((0 + 500 + 200 + 50 : Nat) : Int) - 100) =
        (-50 : Int) from by decide]
    rw [hslice2]
    rw [show contextLoop [] (0 + 500 + 200 + 50 +
        (String.mk (List.replicate 2950 'c')).length + "b".length + 50)
        ([] ++ [contextEntry (String.mk (List.replicate 200 'a'))
            (String.mk (List.replicate 500 'b'))] ++
          [contextEntry "b" (String.mk (List.replicate 2950 'c'))]) =
        [contextEntry (String.mk (List.replicate 200 'a'))
            (String.mk (List.replicate 500 'b')),
          contextEntry "b" (String.mk (List.replicate 2950 'c'))] from by
      simp [contextLoop]]
    rw [intercalate_pair]
  rw [key]
  have hnn : ("\n\n" : String).length = 2 := rfl
  have hb : ("b" : String).length = 1 := rfl
  rw [String.length_append, String.length_append, contextEntry_length,
    contextEntry_length, hnn, hb, String_mk_length, String_mk_length,
    String_mk_length, List.length_replicate, List.length_replicate,
    List.length_replicate]
  constructor
  · norm_num
  · norm_num [maxContextLength]

/-- Claim C6, counterexample to the claim as stated: a non-empty resource
list whose single entry has empty text yields the empty string, not the
sentinel. -/
theorem C6_counterexample :
    create_context_from_resources [("doc", some "")] = "" ∧
    create_context_from_resources [("doc", some "")] ≠ emptyContextSentinel := by
  decide

/-- Claim C7, counterexample to the claim as stated: on the wired answering
path (ChatInterface.get_chatbot_response, the only path that persists
exchanges) a message containing the denylist keyword weather, asked while the
assembled context is exactly the empty-context sentinel, still invokes the
model and returns the model text instead of the fixed refusal string. -/
theorem C7_counterexample :
    (pyContains (pyLower weatherMessage) "weather" = true ∧
      "weather" ∈ nonDocumentKeywords ∧
      combineChroma
        (dbContextFromResources (get_user_accessible_resources emptyDB 2))
        (Except.error "down") = emptyContextSentinel) ∧
    ((get_chatbot_response emptyDB "k" (some "user") (Except.error "down")
        (fun _ _ => Except.ok "It is sunny.") weatherMessage 2).1.modelCalled = true ∧
      (get_chatbot_response emptyDB "k" (some "user") (Except.error "down")
        (fun _ _ => Except.ok "It is sunny.") weatherMessage 2).1.response =
        "It is sunny." ∧
      ("It is sunny." : String) ≠ refusalString) := by
  decide

/-- Claim C10, counterexample to the claim as stated: when the only stored
user is named admin but carries the user role, init_database changes nothing
(its existence check is on the username only), so afterwards no user has both
username admin and role admin. -/
theorem C10_counterexample :
    init_database demotedAdminState = demotedAdminState ∧
    ¬ ∃ u ∈ (init_database demotedAdminState).users,
        u.username = "admin" ∧ u.role = "admin" := by
  decide

/-- URLs pairwise distinct across the resources table (the application-level
uniqueness the upsert relies on). -/
def urlsPairwiseDistinct (l : List ResourceRow) : Prop :=
  l.Pairwise (fun a b => a.url ≠ b.url)

/-- The INSERT branch of the upsert appends a fresh row. -/
theorem upsertResources_absent (s : DBState) (name url fileType uploadedBy : String)
    (txt : Option String)
    (h : s.resources.any (fun r => r.url == url) = false) :
    (upsertResources s name url fileType uploadedBy txt).resources =
      s.resources ++
        [{ id := s.nextResourceId, name := name, url := url, fileType := fileType,
           uploadedBy := uploadedBy, extractedText := txt }] := by
  unfold upsertResources
  rw [if_neg (by simp [h])]

/-- Claim C3: starting from a state where each URL occurs in at most one
resource row, add_resource preserves that uniqueness, and ingesting an
already-present URL rewrites the matching row in place — same row ids in the
same order, no inserted duplicate. -/
theorem C3_upsert_preserves_url_uniqueness (s : DBState)
    (name url fileType uploadedBy : String) (txt : Option String)
    (h : urlsPairwiseDistinct s.resources) :
    urlsPairwiseDistinct (add_resource s name url fileType uploadedBy txt).resources ∧
    ((∃ r0 ∈ s.resources, r0.url = url) →
      (add_resource s name url fileType uploadedBy txt).resources =
        s.resources.map (upsertRowUpdate name fileType uploadedBy txt url) ∧
      (add_resource s name url fileType uploadedBy txt).resources.map
          (fun r => r.id) = s.resources.map (fun r => r.id)) := by
  constructor
  · by_cases hany : s.resources.any (fun r => r.url == url) = true
    · rw [add_resource_resources_present s name url fileType uploadedBy txt hany]
      unfold urlsPairwiseDistinct at h ⊢
      rw [List.pairwise_map]
      exact h.imp (fun hab => by
        rw [upsertRowUpdate_url, upsertRowUpdate_url]; exact hab)
    · have hany2 : s.resources.any (fun r => r.url == url) = false := by
        simpa using hany
      rcases add_resource_resources_cases s name url fileType uploadedBy txt with hc | hc
      · rw [hc, upsertResources_absent s name url fileType uploadedBy txt hany2]
        unfold urlsPairwiseDistinct at h ⊢
        rw [List.pairwise_append]
        refine ⟨h, List.pairwise_singleton _ _, ?_⟩
        intro a ha b hb
        rw [List.mem_singleton] at hb
        subst hb
        intro hEq
        have hbeq : (a.url == url) = true := by
          simpa using hEq
        have hcontra : s.resources.any (fun r => r.url == url) = true :=
          List.any_eq_true.mpr ⟨a, ha, hbeq⟩
        rw [hany2] at hcontra
        exact Bool.false_ne_true hcontra
      · rw [hc]; exact h
  · rintro ⟨r0, hr0, hurl⟩
    have hany : s.resources.any (fun r => r.url == url) = true :=
      List.any_eq_true.mpr ⟨r0, hr0, by simp [hurl]⟩
    have hres := add_resource_resources_present s name url fileType uploadedBy txt hany
    refine ⟨hres, ?_⟩
    rw [hres, List.map_map]
    apply List.map_congr_left
    intro a ha
    simp [Function.comp, upsertRowUpdate_id]

/-- Witness for C3_upsert_preserves_url_uniqueness at a concrete state. -/
theorem C3_upsert_preserves_url_uniqueness_witness :
    urlsPairwiseDistinct
      (add_resource goodTextState "doc2" "u1" "pdf" "admin" (some "new")).resources ∧
    ((∃ r0 ∈ goodTextState.resources, r0.url = "u1") →
      (add_resource goodTextState "doc2" "u1" "pdf" "admin" (some "new")).resources =
        goodTextState.resources.map
          (upsertRowUpdate "doc2" "pdf" "admin" (some "new") "u1") ∧
      (add_resource goodTextState "doc2" "u1" "pdf" "admin"
          (some "new")).resources.map (fun r => r.id) =
        goodTextState.resources.map (fun r => r.id)) :=
  C3_upsert_preserves_url_uniqueness goodTextState "doc2" "u1" "pdf" "admin"
    (some "new") (by unfold urlsPairwiseDistinct; decide)

/-- Claim C4, counterexample to the claim as stated: re-ingesting the stored
URL with the non-null failure string overwrites the previously stored good
text — COALESCE only protects against null, and the sync path always passes a
string. -/
theorem C4_counterexample :
    goodRow ∈ goodTextState.resources ∧
    goodRow.extractedText = some "good telecom text" ∧
    (sync_ingest goodTextState "doc" "u1" "pdf" "admin" pdfFailString).resources.map
        (fun r => r.extractedText) = [some pdfFailString] ∧
    some pdfFailString ≠ some "good telecom text" := by
  decide

/-- The text filter evaluated through a known stored text. -/
theorem passesTextFilter_eq (r : ResourceRow) (t : String)
    (h : r.extractedText = some t) :
    passesTextFilter r = (t != "" && !(likeErrorTag t)) := by
  unfold passesTextFilter
  rw [h]

/-- The stored text of a row rewritten by the UPDATE branch with a non-null
replacement is the replacement (COALESCE on a non-null value). -/
theorem upsertRowUpdate_text_some (name fileType uploadedBy : String)
    (t url : String) (r : ResourceRow) (h : r.url = url) :
    (upsertRowUpdate name fileType uploadedBy (some t) url r).extractedText =
      some t := by
  unfold upsertRowUpdate
  rw [if_pos (by simp [h])]
  rfl

/-- Claim C4 (amended: re-ingesting a URL with the non-null failure string
[PDF extraction error: timeout] replaces the stored text by that string —
prior good text survives only a null replacement — while the resource stays
in the resolver result for every entitled user, because the stored string
does not carry the [ERROR prefix). -/
theorem C4_failed_reextraction (s : DBState) (name url fileType uploadedBy : String)
    (r0 : ResourceRow) (hmem : r0 ∈ s.resources) (hurl : r0.url = url) :
    ∃ r1 ∈ (sync_ingest s name url fileType uploadedBy pdfFailString).resources,
      r1.id = r0.id ∧ r1.url = url ∧ r1.extractedText = some pdfFailString ∧
      passesTextFilter r1 = true ∧
      ∀ uid : Nat,
        (lookupUserRole (sync_ingest s name url fileType uploadedBy pdfFailString)
            uid = "admin" ∨
          ∃ p ∈ (sync_ingest s name url fileType uploadedBy pdfFailString).permissions,
            p.userId = uid ∧ p.resourceId = r1.id ∧ p.canAccess = true) →
        r1 ∈ get_user_accessible_resources
          (sync_ingest s name url fileType uploadedBy pdfFailString) uid := by
  have hsync : sync_ingest s name url fileType uploadedBy pdfFailString =
      add_resource s name url fileType uploadedBy (some pdfFailString) := by
    unfold sync_ingest
    rw [show (pdfFailString == "" || pyStrip pdfFailString == "") = false from by decide]
    simp
  rw [hsync]
  have hany : s.resources.any (fun r => r.url == url) = true :=
    List.any_eq_true.mpr ⟨r0, hmem, by simp [hurl]⟩
  have hres := add_resource_resources_present s name url fileType uploadedBy
    (some pdfFailString) hany
  have htext := upsertRowUpdate_text_some name fileType uploadedBy pdfFailString
    url r0 hurl
  have hpass : passesTextFilter
      (upsertRowUpdate name fileType uploadedBy (some pdfFailString) url r0) = true := by
    rw [passesTextFilter_eq _ pdfFailString htext]
    decide
  have hr1mem : upsertRowUpdate name fileType uploadedBy (some pdfFailString) url r0 ∈
      (add_resource s name url fileType uploadedBy (some pdfFailString)).resources := by
    rw [hres]; exact List.mem_map.mpr ⟨r0, hmem, rfl⟩
  refine ⟨upsertRowUpdate name fileType uploadedBy (some pdfFailString) url r0,
    hr1mem, ?_, ?_, htext, hpass, ?_⟩
  · rw [upsertRowUpdate_id]
  · rw [upsertRowUpdate_url]; exact hurl
  · intro uid hent
    by_cases hrole : lookupUserRole
        (add_resource s name url fileType uploadedBy (some pdfFailString)) uid = "admin"
    · exact (mem_resolve_admin _ uid _ hrole).mpr ⟨hr1mem, hpass⟩
    · rcases hent with hadmin | ⟨p, hp, hpu, hpr, hpc⟩
      · exact absurd hadmin hrole
      · exact (mem_resolve_nonadmin _ uid _ hrole).mpr
          ⟨hr1mem, hpass, p, hp, hpu, hpr, hpc⟩

/-- Witness for C4_failed_reextraction at the concrete good-text state. -/
theorem C4_failed_reextraction_witness :
    ∃ r1 ∈ (sync_ingest goodTextState "doc" "u1" "pdf" "admin"
        pdfFailString).resources,
      r1.id = goodRow.id ∧ r1.url = "u1" ∧ r1.extractedText = some pdfFailString ∧
      passesTextFilter r1 = true ∧
      ∀ uid : Nat,
        (lookupUserRole (sync_ingest goodTextState "doc" "u1" "pdf" "admin"
            pdfFailString) uid = "admin" ∨
          ∃ p ∈ (sync_ingest goodTextState "doc" "u1" "pdf" "admin"
              pdfFailString).permissions,
            p.userId = uid ∧ p.resourceId = r1.id ∧ p.canAccess = true) →
        r1 ∈ get_user_accessible_resources
          (sync_ingest goodTextState "doc" "u1" "pdf" "admin" pdfFailString) uid :=
  C4_failed_reextraction goodTextState "doc" "u1" "pdf" "admin" goodRow
    (by decide) (by decide)

/-- Claim C6 (amended: the sentinel is returned exactly for the empty resource
list; a non-empty list all of whose entries have null, empty or
whitespace-only text yields the empty string instead — which downstream also
treats as the no-context state via its separate emptiness test). -/
theorem C6_empty_context_sentinel (resources : List (String × Option String)) :
    create_context_from_resources [] = emptyContextSentinel ∧
    (resources ≠ [] → (∀ p ∈ resources, pyTruthyText p.2 = false) →
      create_context_from_resources resources = "") := by
  refine ⟨rfl, ?_⟩
  intro hne hall
  have hie : resources.isEmpty = false := by
    cases resources with
    | nil => exact absurd rfl hne
    | cons a l => rfl
  unfold create_context_from_resources
  rw [hie]
  simp only [Bool.false_eq_true, if_false]
  rw [contextLoop_all_skipped _ 0 []
    (fun p hp => hall p (List.take_subset 2 resources hp))]
  rfl

/-- Witness for C6_empty_context_sentinel: a one-entry list with
whitespace-only text. -/
theorem C6_empty_context_sentinel_witness :
    create_context_from_resources [("doc", some " ")] = "" :=
  (C6_empty_context_sentinel [("doc", some " ")]).2 (by decide) (by decide)

/-- Claim C7 (amended: the sentinel/keyword short-circuit lives in
ChatbotService.get_response_with_fallback: when the context equals the
empty-context sentinel or the message contains a denylist keyword, it returns
the fixed refusal string without invoking the model; this function does not
itself append the exchange to the chat history — persistence happens only in
ChatInterface.get_chatbot_response, which lacks this short-circuit). -/
theorem C7_relevance_shortcircuit
    (completion : String → String → Except String String)
    (message context userRole : String)
    (h : context = emptyContextSentinel ∨
      nonDocumentKeywords.any (fun kw => pyContains (pyLower message) kw) = true) :
    get_response_with_fallback completion message context userRole =
      { response := refusalString, modelCalled := false } := by
  have hrel : is_document_related_question message context = false := by
    unfold is_document_related_question
    rcases h with h | h
    · subst h
      rw [if_pos (by decide)]
    · by_cases hc : (context == "" || pyStrip context == emptyContextSentinel) = true
      · rw [if_pos hc]
      · rw [if_neg hc, if_pos h]
  unfold get_response_with_fallback
  rw [hrel]
  rfl

/-- Witness for C7_relevance_shortcircuit: the weather probe is refused
without a model call even with non-empty context and a live completion. -/
theorem C7_relevance_shortcircuit_witness :
    get_response_with_fallback (fun _ _ => Except.ok "model text") weatherMessage
      "some document context" "user" =
      { response := refusalString, modelCalled := false } :=
  C7_relevance_shortcircuit (fun _ _ => Except.ok "model text") weatherMessage
    "some document context" "user" (Or.inr (by decide))

/-- Claim C8: whenever the API key is configured and the completion call
raises, ChatInterface.get_chatbot_response returns the literal
Sorry-I-encountered-an-error string as an ordinary value, reports exactly that
exchange, and appends it as a new chat_history row for the same user and
message. -/
theorem C8_completion_errors_contained (s : DBState) (apiKey : String)
    (sessionRole : Option String) (chromaResult : Except String String)
    (e message : String) (userId : Nat) (h : apiKey ≠ "") :
    ((get_chatbot_response s apiKey sessionRole chromaResult
        (fun _ _ => Except.error e) message userId).1.response =
      errorResponseMsg e) ∧
    ((get_chatbot_response s apiKey sessionRole chromaResult
        (fun _ _ => Except.error e) message userId).1.savedHistory =
      [(userId, message, errorResponseMsg e)]) ∧
    ((get_chatbot_response s apiKey sessionRole chromaResult
        (fun _ _ => Except.error e) message userId).2.chatHistory =
      s.chatHistory ++
        [{ id := s.nextChatId, userId := userId, message := message,
           response := errorResponseMsg e }]) := by
  have hk : (apiKey == "") = false := beq_eq_false_iff_ne.mpr h
  unfold get_chatbot_response
  rw [if_neg (by rw [hk]; exact Bool.false_ne_true)]
  exact ⟨rfl, rfl, rfl⟩

/-- Witness for C8_completion_errors_contained at concrete inputs. -/
theorem C8_completion_errors_contained_witness :
    ((get_chatbot_response emptyDB "k" (some "user") (Except.error "down")
        (fun _ _ => Except.error "boom") "hello" 7).1.response =
      errorResponseMsg "boom") ∧
    ((get_chatbot_response emptyDB "k" (some "user") (Except.error "down")
        (fun _ _ => Except.error "boom") "hello" 7).1.savedHistory =
      [(7, "hello", errorResponseMsg "boom")]) ∧
    ((get_chatbot_response emptyDB "k" (some "user") (Except.error "down")
        (fun _ _ => Except.error "boom") "hello" 7).2.chatHistory =
      emptyDB.chatHistory ++
        [{ id := emptyDB.nextChatId, userId := 7, message := "hello",
           response := errorResponseMsg "boom" }]) :=
  C8_completion_errors_contained emptyDB "k" (some "user") (Except.error "down")
    "boom" "hello" 7 (by decide)

/-- Claim C9: the context builder reads only the first two entries of its
input — the output is unchanged when the input is truncated to its first two
entries, so entries at index two or later never contribute. -/
theorem C9_first_two_documents_only (resources : List (String × Option String)) :
    create_context_from_resources resources =
      create_context_from_resources (resources.take 2) := by
  cases resources with
  | nil => rfl
  | cons a rest =>
    unfold create_context_from_resources
    have h1 : (a :: rest).isEmpty = false := rfl
    have h2 : ((a :: rest).take 2).isEmpty = false := by
      cases rest <;> rfl
    rw [h1, h2]
    simp only [Bool.false_eq_true, if_false]
    rw [List.take_take, show min 2 2 = 2 from rfl]

/-- Claim C10 (amended: after init_database a user named admin always exists;
when none existed one is created with role admin and the SHA-256 hash of the
literal admin123; when one already existed the whole state is unchanged, even
if that account no longer carries the admin role). -/
theorem C10_admin_seed (s : DBState) :
    (∃ u ∈ (init_database s).users, u.username = "admin") ∧
    ((∀ u ∈ s.users, u.username ≠ "admin") →
      (init_database s).users = s.users ++
        [{ id := s.nextUserId, username := "admin",
           passwordHash := hashPassword "admin123", role := "admin" }]) ∧
    ((∃ u ∈ s.users, u.username = "admin") → init_database s = s) := by
  by_cases h : s.users.any (fun u => u.username == "admin") = true
  · have hex : ∃ u ∈ s.users, u.username = "admin" := by
      rcases List.any_eq_true.mp h with ⟨u, hu, hb⟩
      exact ⟨u, hu, by simpa using hb⟩
    have hid : init_database s = s := by
      unfold init_database
      rw [if_pos h]
    refine ⟨?_, ?_, fun _ => hid⟩
    · rw [hid]; exact hex
    · intro hnone
      rcases hex with ⟨u, hu, hname⟩
      exact absurd hname (hnone u hu)
  · have h2 : s.users.any (fun u => u.username == "admin") = false := by
      simpa using h
    have hid : (init_database s).users = s.users ++
        [{ id := s.nextUserId, username := "admin",
           passwordHash := hashPassword "admin123", role := "admin" }] := by
      unfold init_database
      rw [if_neg h]
    refine ⟨?_, fun _ => hid, ?_⟩
    · refine ⟨⟨s.nextUserId, "admin", hashPassword "admin123", "admin"⟩, ?_, rfl⟩
      rw [hid]
      exact List.mem_append_right _ (List.mem_singleton_self _)
    · intro hex
      rcases hex with ⟨u, hu, hname⟩
      have hb : (u.username == "admin") = true := by simp [hname]
      have hany : s.users.any (fun u => u.username == "admin") = true :=
        List.any_eq_true.mpr ⟨u, hu, hb⟩
      rw [h2] at hany
      exact absurd hany Bool.false_ne_true

/-- Witness for C10_admin_seed: seeding an empty database creates the default
admin account. -/
theorem C10_admin_seed_witness :
    (init_database emptyDB).users =
      [{ id := 1, username := "admin", passwordHash := hashPassword "admin123",
         role := "admin" }] := by
  have h := (C10_admin_seed emptyDB).2.1 (by intro u hu; simp [emptyDB] at hu)
  simpa [emptyDB] using h
